import Mathlib

/-!
# EqualizeHistogramNodelet

A shallow embedding of `src/nodelet/equalize_histogram_nodelet.cpp`: the adapter's
fields become the record `Nodelet`, every member function becomes a function on
that record, and the collaborators the file only calls (cv_bridge, OpenCV, the
generated configuration header) are gathered in the record `Deps`, over which
every theorem quantifies.  A C++ exception is a value of `Exn`; the typed handler
`catch (cv::Exception& e)` is the match in `doWork`.
-/

namespace EqualizeHistogram

/-! ## Messages and buffers -/

/-- A C++ double, kept as its IEEE-754 bit pattern: the adapter stores and forwards it only. -/
structure Double where
  bits : Nat
  deriving DecidableEq, Repr

/-- The type ros::Time. -/
structure Time where
  sec : Nat
  nsec : Nat
  deriving DecidableEq, Repr

/-- The message std_msgs/Header. -/
structure Header where
  seq : Nat
  stamp : Time
  frame_id : String
  deriving DecidableEq, Repr

/-- The message sensor_msgs/Image. -/
structure Image where
  header : Header
  height : Nat
  width : Nat
  encoding : String
  is_bigendian : Bool
  step : Nat
  data : List Nat
  deriving DecidableEq, Repr

/-- The message sensor_msgs/CameraInfo; the adapter reads its header only. -/
structure CameraInfo where
  header : Header
  height : Nat
  width : Nat
  distortion_model : String
  deriving DecidableEq, Repr

/-- The type cv::Size. -/
structure Size where
  width : Int
  height : Int
  deriving DecidableEq, Repr

/-- A pixel buffer (cv::Mat and cv::UMat alike): its extent, the bytes of one channel
element (1 for 8-bit depth), the channel count and the bytes. -/
structure Mat where
  rows : Nat
  cols : Nat
  elemSize1 : Nat
  channels : Nat
  data : List Nat
  deriving DecidableEq, Repr

/-- The default-constructed buffer: no pixels, type CV_8UC1. -/
def Mat.empty : Mat := ⟨0, 0, 1, 1, []⟩

/-- Bytes of one pixel, `elemSize()`. -/
def Mat.elemSize (m : Mat) : Nat := m.channels * m.elemSize1

/-- A C++ exception leaving a library call: a `cv::Exception` with its four logged
fields, or an exception of any other class (for instance `cv_bridge::Exception`,
which derives from `std::runtime_error`). -/
inductive Exn where
  | cv (err func file : String) (line : Int)
  | other (what : String)
  deriving DecidableEq, Repr

/-- Whether the exception is a `cv::Exception`, the class the handler of `doWork` names. -/
def Exn.isCv : Exn → Bool
  | .cv _ _ _ _ => true
  | .other _ => false

/-- The image of cv_bridge, `cv_bridge::CvImage(header, encoding, image)`. -/
structure CvImage where
  header : Header
  encoding : String
  image : Mat
  deriving DecidableEq, Repr

/-- The constant sensor_msgs::image_encodings::BGR8. -/
def BGR8 : String := "bgr8"

/-- The constant sensor_msgs::image_encodings::MONO8. -/
def MONO8 : String := "mono8"

/-- The field OPENCV_WINDOW (line 64). -/
def OPENCV_WINDOW : String := "Equalize Histogram Window"

/-- The constant cv::WINDOW_AUTOSIZE. -/
def WINDOW_AUTOSIZE : Int := 1

/-- The constant cv::COLOR_BGR2GRAY. -/
def COLOR_BGR2GRAY : Int := 6

/-! ## Configuration and adapter state -/

/-- The generated type opencv_apps::EqualizeHistogramConfig: the fields the adapter reads. -/
structure Config where
  histogram_equalization_type : Int
  clahe_tile_size_x : Int
  clahe_tile_size_y : Int
  clahe_clip_limit : Double
  use_camera_info : Bool
  deriving DecidableEq, Repr

/-- Modelled from the spec: the processor behind `cv::Ptr<cv::CLAHE>` (OpenCV, not under
src/), "reconfigured (tile size, clip limit) on every invocation".  It is the pair of
parameters its two setters write; its lookup tables are rebuilt by every apply. -/
structure CLAHE where
  tilesGridSize : Size
  clipLimit : Double
  deriving DecidableEq, Repr

/-- The call `clahe_->setTilesGridSize(sz)`. -/
def CLAHE.setTilesGridSize (p : CLAHE) (sz : Size) : CLAHE := { p with tilesGridSize := sz }

/-- The call `clahe_->setClipLimit(v)`. -/
def CLAHE.setClipLimit (p : CLAHE) (v : Double) : CLAHE := { p with clipLimit := v }

/-- Which member function a subscription delivers to. -/
inductive Callback where
  | imageCallback
  | imageCallbackWithInfo
  deriving DecidableEq, Repr

/-- What a live image_transport subscription handle stands for. -/
structure Subscription where
  topic : String
  queue_size : Int
  callback : Callback
  deriving DecidableEq, Repr

/-- The fields of EqualizeHistogramNodelet (lines 64-84).  A subscriber handle is
`some` while it is active and `none` once shut down or never assigned. -/
structure Nodelet where
  img_sub_ : Option Subscription
  cam_sub_ : Option Subscription
  clahe_ : Option CLAHE
  config_ : Config
  queue_size_ : Int
  debug_view_ : Bool
  use_opencl_ : Bool
  clahe_tile_size_ : Size
  clahe_clip_limit_ : Double
  deriving DecidableEq, Repr

/-- The collaborators of the adapter that are not part of this file: cv_bridge and
OpenCV calls (each may throw), the factory of the CLAHE processor, the two
enumerators of the generated configuration header, and the byte order of the host. -/
structure Deps where
  toCvShare : Image → String → Except Exn Mat
  cvtColor : Mat → Int → Except Exn Mat
  createCLAHE : CLAHE
  claheApply : CLAHE → Mat → Except Exn Mat
  equalizeHist : Mat → Except Exn Mat
  namedWindow : String → Int → Except Exn Unit
  imshow : String → Mat → Except Exn Unit
  waitKey : Int → Except Exn Int
  EqualizeHistogram_Clahe : Int
  EqualizeHistogram_EqualizeHist : Int
  hostBigEndian : Bool

/-- What one call of `doWork` leaves behind: the adapter state, the frames handed to
`img_pub_.publish`, the lines given to NODELET_ERROR, and the exception that left
the function uncaught, if any. -/
structure Outcome where
  state : Nodelet
  published : List Image
  logged : List String
  escaped : Option Exn
  deriving DecidableEq, Repr

/-! ## Member functions -/

/-- The function reconfigureCallback (lines 86-91). -/
def reconfigureCallback (s : Nodelet) (new_config : Config) (_level : Nat) : Nodelet :=
  { s with
    config_ := new_config
    clahe_tile_size_ := ⟨new_config.clahe_tile_size_x, new_config.clahe_tile_size_y⟩
    clahe_clip_limit_ := new_config.clahe_clip_limit }

/-- Lines 108-112: the frame stays default-constructed when neither encoding matches. -/
def decode (d : Deps) (msg : Image) : Except Exn Mat :=
  if msg.encoding = BGR8 then d.toCvShare msg BGR8
  else if msg.encoding = MONO8 then d.toCvShare msg MONO8
  else .ok Mat.empty

/-- Lines 114-117. -/
def openWindow (d : Deps) (s : Nodelet) : Except Exn Unit :=
  if s.debug_view_ then d.namedWindow OPENCV_WINDOW WINDOW_AUTOSIZE else .ok ()

/-- Modelled from the spec: `cv::UMat::copyTo` (OpenCV, not under src/), "otherwise copy
through unchanged"; the destination receives the pixels of the source. -/
def Mat.copyTo (m : Mat) : Mat := m

/-- Lines 120-128. -/
def toGray (d : Deps) (frame : Mat) : Except Exn Mat :=
  if frame.channels > 1 then d.cvtColor frame COLOR_BGR2GRAY else .ok frame.copyTo

/-- Lines 130-142: the switch; with neither enumerator `dst` stays default-constructed. -/
def equalize (d : Deps) (s : Nodelet) (gray : Mat) : Nodelet × Except Exn Mat :=
  if s.config_.histogram_equalization_type = d.EqualizeHistogram_Clahe then
    let p0 := match s.clahe_ with
      | none => d.createCLAHE
      | some p => p
    let p1 := p0.setTilesGridSize s.clahe_tile_size_
    let p2 := p1.setClipLimit s.clahe_clip_limit_
    ({ s with clahe_ := some p2 }, d.claheApply p2 gray)
  else if s.config_.histogram_equalization_type = d.EqualizeHistogram_EqualizeHist then
    (s, d.equalizeHist gray)
  else (s, .ok Mat.empty)

/-- Lines 145-149. -/
def showResult (d : Deps) (s : Nodelet) (dst : Mat) : Except Exn Unit :=
  if s.debug_view_ then
    match d.imshow OPENCV_WINDOW dst with
    | .error e => .error e
    | .ok _ =>
      match d.waitKey 1 with
      | .error e => .error e
      | .ok _ => .ok ()
  else .ok ()

/-- Modelled from the spec: `cv_bridge::CvImage::toImageMsg` (cv_bridge, not under src/),
"wrap the output buffer as an outbound frame, preserving the original
timestamp/sequence metadata": header and encoding are copied, the extent and the
row stride come from the buffer. -/
def CvImage.toImageMsg (d : Deps) (c : CvImage) : Image :=
  { header := c.header
    height := c.image.rows
    width := c.image.cols
    encoding := c.encoding
    is_bigendian := d.hostBigEndian
    step := c.image.cols * c.image.elemSize
    data := c.image.data }

/-- Lines 152-155: the outbound frame. -/
def outImg (d : Deps) (msg : Image) (input_frame_from_msg : String) (dst : Mat) : Image :=
  let out_img := CvImage.toImageMsg d ⟨msg.header, MONO8, dst⟩
  { out_img with header := { out_img.header with frame_id := input_frame_from_msg } }

/-- The body of the try block (lines 106-156): the adapter state it leaves and either
the exception it raised or the frame it handed to `img_pub_.publish`. -/
def tryBlock (d : Deps) (s : Nodelet) (msg : Image) (input_frame_from_msg : String) :
    Nodelet × Except Exn Image :=
  match decode d msg with
  | .error e => (s, .error e)
  | .ok frame =>
    match openWindow d s with
    | .error e => (s, .error e)
    | .ok _ =>
      match toGray d frame with
      | .error e => (s, .error e)
      | .ok gray =>
        match equalize d s gray with
        | (s1, .error e) => (s1, .error e)
        | (s1, .ok dst) =>
          match showResult d s1 dst with
          | .error e => (s1, .error e)
          | .ok _ => (s1, .ok (outImg d msg input_frame_from_msg dst))

/-- The line given to NODELET_ERROR (line 160). -/
def errorLine (err func file : String) (line : Int) : String :=
  "Image processing error: " ++ err ++ " " ++ func ++ " " ++ file ++ " " ++ toString line

/-- The function doWork (lines 103-162): the try block under its handler, which names
`cv::Exception` only. -/
def doWork (d : Deps) (s : Nodelet) (msg : Image) (input_frame_from_msg : String) : Outcome :=
  match tryBlock d s msg input_frame_from_msg with
  | (s1, .ok out_img) => ⟨s1, [out_img], [], none⟩
  | (s1, .error (.cv err func file line)) => ⟨s1, [], [errorLine err func file line], none⟩
  | (s1, .error (.other what)) => ⟨s1, [], [], some (.other what)⟩

/-- The function imageCallbackWithInfo (lines 93-96). -/
def imageCallbackWithInfo (d : Deps) (s : Nodelet) (msg : Image) (cam_info : CameraInfo) :
    Outcome :=
  doWork d s msg cam_info.header.frame_id

/-- The function imageCallback (lines 98-101). -/
def imageCallback (d : Deps) (s : Nodelet) (msg : Image) : Outcome :=
  doWork d s msg msg.header.frame_id

/-- The function subscribe (lines 164-171). -/
def subscribe (s : Nodelet) : Nodelet :=
  if s.config_.use_camera_info then
    { s with cam_sub_ := some ⟨"image", s.queue_size_, .imageCallbackWithInfo⟩ }
  else
    { s with img_sub_ := some ⟨"image", s.queue_size_, .imageCallback⟩ }

/-- The function unsubscribe (lines 173-178). -/
def unsubscribe (s : Nodelet) : Nodelet :=
  { s with img_sub_ := none, cam_sub_ := none }

/-- What the middleware can deliver to the adapter between two frames. -/
inductive Event where
  | reconfigure (new_config : Config) (level : Nat)
  | image (msg : Image)
  | imageWithInfo (msg : Image) (cam_info : CameraInfo)
  | subscribe
  | unsubscribe

/-- The adapter state after one delivered event. -/
def step (d : Deps) (s : Nodelet) : Event → Nodelet
  | .reconfigure c level => reconfigureCallback s c level
  | .image msg => (imageCallback d s msg).state
  | .imageWithInfo msg cam_info => (imageCallbackWithInfo d s msg cam_info).state
  | .subscribe => subscribe s
  | .unsubscribe => unsubscribe s

/-- The adapter state after a sequence of delivered events. -/
def run (d : Deps) (s : Nodelet) (events : List Event) : Nodelet :=
  events.foldl (step d) s

/-! ## An executable instance of the collaborators

The theorems below hold for every `Deps`.  The instance here makes the embedding
run on concrete frames; its control behaviour follows the libraries (which inputs
are rejected, and with which exception class), its CLAHE arithmetic is a toy. -/

/-- Grayscale of interleaved B, G, R bytes with the fixed-point weights of OpenCV. -/
def lumaBytes : List Nat → List Nat
  | b :: g :: r :: rest => (b * 1868 + g * 9617 + r * 4899 + 8192) / 16384 :: lumaBytes rest
  | _ => []

/-- The lookup value of global equalization for intensity `v` over the bytes `px`. -/
def equalizedValue (px : List Nat) (v : Nat) : Nat :=
  let lowest := px.foldl min 255
  let atLowest := px.countP (fun x => x = lowest)
  let upTo := px.countP (fun x => lowest < x ∧ x ≤ v)
  let den := px.length - atLowest
  if den = 0 then lowest else (2 * upTo * 255 + den) / (2 * den)

/-- An instance of the collaborators: cv_bridge rejects a frame whose byte count
disagrees with its stride (with its own exception class), the OpenCV calls reject a
wrong channel count or an empty window image with `cv::Exception`. -/
def sampleDeps : Deps where
  toCvShare := fun msg enc =>
    if msg.height * msg.step = msg.data.length then
      .ok ⟨msg.height, msg.width, 1, if enc = BGR8 then 3 else 1, msg.data⟩
    else .error (.other "cv_bridge::Exception: Image is wrongly formed")
  cvtColor := fun m _ =>
    if m.channels = 3 then .ok ⟨m.rows, m.cols, m.elemSize1, 1, lumaBytes m.data⟩
    else .error (.cv "Assertion failed" "cvtColor" "color.cpp" 0)
  createCLAHE := ⟨⟨8, 8⟩, ⟨0x4044000000000000⟩⟩
  claheApply := fun p g =>
    if g.channels = 1 ∧ 0 < p.tilesGridSize.width ∧ 0 < p.tilesGridSize.height then
      .ok { g with data := g.data.map fun v =>
              (v + p.tilesGridSize.width.toNat + p.clipLimit.bits) % 256 }
    else .error (.cv "Assertion failed" "apply" "clahe.cpp" 0)
  equalizeHist := fun g =>
    if g.channels = 1 ∧ g.elemSize1 = 1 then
      .ok { g with data := g.data.map (equalizedValue g.data) }
    else .error (.cv "Assertion failed" "equalizeHist" "histogram.cpp" 0)
  namedWindow := fun _ _ => .ok ()
  imshow := fun _ m =>
    if m.rows = 0 ∨ m.cols = 0 then .error (.cv "Assertion failed" "imshow" "window.cpp" 0)
    else .ok ()
  waitKey := fun _ => .ok (-1)
  EqualizeHistogram_Clahe := 1
  EqualizeHistogram_EqualizeHist := 0
  hostBigEndian := false

/-- The same collaborators on a host whose OpenCV has no window backend: `namedWindow`
throws `cv::Exception`. -/
def headlessDeps : Deps :=
  { sampleDeps with
    namedWindow := fun _ _ => .error (.cv "The function is not implemented" "cvNamedWindow" "window.cpp" 0) }

/-- A configuration selecting global equalization. -/
def globalConfig : Config := ⟨0, 8, 8, ⟨0x4000000000000000⟩, false⟩

/-- A configuration selecting CLAHE with a 4 x 2 tile grid. -/
def claheConfig : Config := ⟨1, 4, 2, ⟨0x4000000000000000⟩, true⟩

/-- An adapter right after start-up with the given configuration and debug flag. -/
def freshNodelet (c : Config) (debug_view : Bool) : Nodelet :=
  reconfigureCallback ⟨none, none, none, c, 3, debug_view, true, ⟨0, 0⟩, ⟨0⟩⟩ c 0

/-- A 1 x 4 grayscale frame. -/
def monoMsg : Image := ⟨⟨7, ⟨100, 5⟩, "camera"⟩, 1, 4, "mono8", false, 4, [10, 20, 20, 200]⟩

/-- A 1 x 2 colour frame. -/
def bgrMsg : Image := ⟨⟨8, ⟨101, 0⟩, "camera"⟩, 1, 2, "bgr8", false, 6, [0, 0, 255, 255, 255, 255]⟩

/-- A frame in an encoding the adapter does not decode. -/
def rgbMsg : Image := ⟨⟨9, ⟨102, 0⟩, "camera"⟩, 1, 1, "rgb8", false, 3, [1, 2, 3]⟩

/-- A grayscale frame whose three bytes disagree with its stride of four. -/
def truncatedMsg : Image := ⟨⟨10, ⟨103, 0⟩, "camera"⟩, 1, 4, "mono8", false, 4, [1, 2, 3]⟩

/-- A calibration message in another coordinate frame. -/
def sampleInfo : CameraInfo := ⟨⟨7, ⟨100, 5⟩, "camera_optical"⟩, 1, 4, "plumb_bob"⟩

/-- Two adapter states that agree on everything `doWork` reads before it touches the
processor: the algorithm selector, the stored tile size and clip limit, the debug flag. -/
def SameSettings (s t : Nodelet) : Prop :=
  s.config_.histogram_equalization_type = t.config_.histogram_equalization_type ∧
  s.clahe_tile_size_ = t.clahe_tile_size_ ∧
  s.clahe_clip_limit_ = t.clahe_clip_limit_ ∧
  s.debug_view_ = t.debug_view_

instance (s t : Nodelet) : Decidable (SameSettings s t) := by
  unfold SameSettings
  infer_instance

/-- The buffer types the libraries document for the calls of `doWork`: decoding to BGR8 or
MONO8 gives 8-bit elements; `cvtColor` to gray gives one channel of the source depth; CLAHE
accepts one channel and returns the type of its input; `equalizeHist` returns CV_8UC1. -/
def TypeContract (d : Deps) : Prop :=
  (∀ msg enc m, enc = BGR8 ∨ enc = MONO8 → d.toCvShare msg enc = .ok m → m.elemSize1 = 1) ∧
  (∀ m g, d.cvtColor m COLOR_BGR2GRAY = .ok g → g.channels = 1 ∧ g.elemSize1 = m.elemSize1) ∧
  (∀ p g dst, d.claheApply p g = .ok dst →
    g.channels = 1 ∧ dst.channels = g.channels ∧ dst.elemSize1 = g.elemSize1) ∧
  (∀ g dst, d.equalizeHist g = .ok dst → dst.channels = 1 ∧ dst.elemSize1 = 1)

/-! ## Shared lemmas -/

/-- The switch changes no field of the adapter but `clahe_`. -/
theorem equalize_state (d : Deps) (s : Nodelet) (gray : Mat) :
    (equalize d s gray).1 = { s with clahe_ := (equalize d s gray).1.clahe_ } := by
  unfold equalize
  split
  · rfl
  · split <;> rfl

/-- The buffer the switch produces is read off the stored selector, tile size and clip limit;
the processor kept from earlier calls does not enter it. -/
theorem equalize_result (d : Deps) (s : Nodelet) (gray : Mat) :
    (equalize d s gray).2 =
      if s.config_.histogram_equalization_type = d.EqualizeHistogram_Clahe then
        d.claheApply ⟨s.clahe_tile_size_, s.clahe_clip_limit_⟩ gray
      else if s.config_.histogram_equalization_type = d.EqualizeHistogram_EqualizeHist then
        d.equalizeHist gray
      else .ok Mat.empty := by
  unfold equalize
  split
  · cases s.clahe_ <;> rfl
  · split <;> rfl

/-- The debug display after the switch sees the debug flag from before it. -/
theorem showResult_state (d : Deps) (s : Nodelet) (gray dst : Mat) :
    showResult d (equalize d s gray).1 dst = showResult d s dst := by
  rw [equalize_state]
  rfl

/-- The try block changes no field of the adapter but `clahe_`. -/
theorem tryBlock_state (d : Deps) (s : Nodelet) (msg : Image) (f : String) :
    (tryBlock d s msg f).1 = { s with clahe_ := (tryBlock d s msg f).1.clahe_ } := by
  unfold tryBlock
  split
  · rfl
  · split
    · rfl
    · split
      · rfl
      · rename_i gray _
        have h := equalize_state d s gray
        split <;> rename_i heq <;> rw [heq] at h <;> simp only at h
        · exact h
        · split <;> exact h

/-- The result of the try block, step by step, with the state threading removed. -/
theorem tryBlock_result (d : Deps) (s : Nodelet) (msg : Image) (f : String) :
    (tryBlock d s msg f).2 =
      match decode d msg with
      | .error e => .error e
      | .ok frame =>
        match openWindow d s with
        | .error e => .error e
        | .ok _ =>
          match toGray d frame with
          | .error e => .error e
          | .ok gray =>
            match (equalize d s gray).2 with
            | .error e => .error e
            | .ok dst =>
              match showResult d s dst with
              | .error e => .error e
              | .ok _ => .ok (outImg d msg f dst) := by
  unfold tryBlock
  split
  · rfl
  · split
    · rfl
    · split
      · rfl
      · rename_i gray _
        have hs := fun dst => showResult_state d s gray dst
        split
        · rename_i heq
          rw [heq]
        · rename_i heq
          rw [heq] at hs ⊢
          simp only at hs ⊢
          rw [hs]
          split <;> rfl

/-- States with the same settings give the same result of the try block. -/
theorem tryBlock_sameSettings (d : Deps) (s t : Nodelet) (msg : Image) (f : String)
    (h : SameSettings s t) : (tryBlock d s msg f).2 = (tryBlock d t msg f).2 := by
  obtain ⟨h1, h2, h3, h4⟩ := h
  have hw : openWindow d s = openWindow d t := by simp [openWindow, h4]
  have he : ∀ g, (equalize d s g).2 = (equalize d t g).2 := by
    intro g
    simp [equalize_result, h1, h2, h3]
  have hsh : ∀ dst, showResult d s dst = showResult d t dst := by
    intro dst
    simp [showResult, h4]
  simp only [tryBlock_result, hw, he, hsh]

/-- The handler leaves the state of the try block as it is. -/
theorem doWork_state (d : Deps) (s : Nodelet) (msg : Image) (f : String) :
    (doWork d s msg f).state = (tryBlock d s msg f).1 := by
  unfold doWork
  split <;> rename_i heq <;> rw [heq]

/-- A frame is published exactly when the try block completes. -/
theorem doWork_published (d : Deps) (s : Nodelet) (msg : Image) (f : String) :
    (doWork d s msg f).published =
      match (tryBlock d s msg f).2 with
      | .ok out_img => [out_img]
      | .error _ => [] := by
  unfold doWork
  split <;> rename_i heq <;> rw [heq]

/-- An exception escapes exactly when the try block raises one that is no `cv::Exception`. -/
theorem doWork_escaped (d : Deps) (s : Nodelet) (msg : Image) (f : String) :
    (doWork d s msg f).escaped =
      match (tryBlock d s msg f).2 with
      | .error (.other what) => some (.other what)
      | _ => none := by
  unfold doWork
  split <;> rename_i heq <;> rw [heq]

/-- A line is logged exactly when the try block raises a `cv::Exception`. -/
theorem doWork_logged (d : Deps) (s : Nodelet) (msg : Image) (f : String) :
    (doWork d s msg f).logged =
      match (tryBlock d s msg f).2 with
      | .error (.cv err func file line) => [errorLine err func file line]
      | _ => [] := by
  unfold doWork
  split <;> rename_i heq <;> rw [heq]

/-- States with the same settings give the same observable outcome of `doWork`. -/
theorem doWork_sameSettings (d : Deps) (s t : Nodelet) (msg : Image) (f : String)
    (h : SameSettings s t) :
    (doWork d s msg f).published = (doWork d t msg f).published ∧
    (doWork d s msg f).logged = (doWork d t msg f).logged ∧
    (doWork d s msg f).escaped = (doWork d t msg f).escaped := by
  simp only [doWork_published, doWork_logged, doWork_escaped, tryBlock_sameSettings d s t msg f h,
    and_self]

/-- The function `doWork` changes no field of the adapter but `clahe_`. -/
theorem doWork_keeps_settings (d : Deps) (s : Nodelet) (msg : Image) (f : String) :
    (doWork d s msg f).state = { s with clahe_ := (doWork d s msg f).state.clahe_ } := by
  rw [doWork_state]
  exact tryBlock_state d s msg f

/-- A published frame has passed every step of the try block. -/
theorem published_cases (d : Deps) (s : Nodelet) (msg : Image) (f : String) (img : Image)
    (h : img ∈ (doWork d s msg f).published) :
    ∃ frame gray dst, decode d msg = .ok frame ∧ openWindow d s = .ok () ∧
      toGray d frame = .ok gray ∧ (equalize d s gray).2 = .ok dst ∧
      showResult d s dst = .ok () ∧ img = outImg d msg f dst := by
  rw [doWork_published, tryBlock_result] at h
  cases hd : decode d msg with
  | error e => simp [hd] at h
  | ok frame =>
    cases hw : openWindow d s with
    | error e => simp [hd, hw] at h
    | ok u =>
      cases hg : toGray d frame with
      | error e => simp [hd, hw, hg] at h
      | ok gray =>
        cases he : (equalize d s gray).2 with
        | error e => simp [hd, hw, hg, he] at h
        | ok dst =>
          cases hs : showResult d s dst with
          | error e => simp [hd, hw, hg, he, hs] at h
          | ok v =>
            simp [hd, hw, hg, he, hs] at h
            refine ⟨frame, gray, dst, ?_, ?_, ?_, ?_, ?_, h⟩ <;> first | rfl | assumption

/-- When every step of the try block succeeds, its frame is published. -/
theorem published_of_steps (d : Deps) (s : Nodelet) (msg : Image) (f : String)
    (frame gray dst : Mat) (hd : decode d msg = .ok frame) (hw : openWindow d s = .ok ())
    (hg : toGray d frame = .ok gray) (he : (equalize d s gray).2 = .ok dst)
    (hs : showResult d s dst = .ok ()) :
    (doWork d s msg f).published = [outImg d msg f dst] ∧ (doWork d s msg f).escaped = none := by
  simp [doWork_published, doWork_escaped, tryBlock_result, hd, hw, hg, he, hs]

/-- No event changes the debug flag. -/
theorem step_debug_view (d : Deps) (s : Nodelet) (ev : Event) :
    (step d s ev).debug_view_ = s.debug_view_ := by
  cases ev with
  | reconfigure c level => rfl
  | image msg =>
    show (doWork d s msg msg.header.frame_id).state.debug_view_ = _
    rw [doWork_keeps_settings]
  | imageWithInfo msg cam_info =>
    show (doWork d s msg cam_info.header.frame_id).state.debug_view_ = _
    rw [doWork_keeps_settings]
  | subscribe =>
    show (subscribe s).debug_view_ = _
    unfold subscribe
    split <;> rfl
  | unsubscribe => rfl

/-- No sequence of events changes the debug flag. -/
theorem run_debug_view (d : Deps) (events : List Event) :
    ∀ s : Nodelet, (run d s events).debug_view_ = s.debug_view_ := by
  induction events with
  | nil => intro s; rfl
  | cons ev rest ih =>
    intro s
    show (run d (step d s ev) rest).debug_view_ = _
    rw [ih, step_debug_view]

/-- Reconfiguring two adapters with one configuration gives them the same settings. -/
theorem sameSettings_reconfigure (s t : Nodelet) (c : Config) (l l' : Nat)
    (h : s.debug_view_ = t.debug_view_) :
    SameSettings (reconfigureCallback s c l) (reconfigureCallback t c l') :=
  ⟨rfl, rfl, rfl, h⟩

/-- The sample collaborators return the buffer types the libraries document. -/
theorem sampleDeps_typeContract : TypeContract sampleDeps := by
  refine ⟨?_, ?_, ?_, ?_⟩
  · intro msg enc m _ h
    simp only [sampleDeps] at h
    split at h
    · cases h
      rfl
    · cases h
  · intro m g h
    simp only [sampleDeps] at h
    split at h
    · cases h
      exact ⟨rfl, rfl⟩
    · cases h
  · intro p g dst h
    simp only [sampleDeps] at h
    split at h
    · rename_i hc
      cases h
      exact ⟨hc.1, rfl, rfl⟩
    · cases h
  · intro g dst h
    simp only [sampleDeps] at h
    split at h
    · rename_i hc
      cases h
      exact ⟨hc.1, hc.2⟩
    · cases h

/-- A step that raises makes the try block raise the same exception. -/
theorem tryBlock_error_of_step (d : Deps) (s : Nodelet) (msg : Image) (f : String) (e : Exn)
    (hfail : decode d msg = .error e ∨
      ∃ frame, decode d msg = .ok frame ∧ openWindow d s = .ok () ∧
        (toGray d frame = .error e ∨
          ∃ gray, toGray d frame = .ok gray ∧ (equalize d s gray).2 = .error e)) :
    (tryBlock d s msg f).2 = .error e := by
  rw [tryBlock_result]
  rcases hfail with hd | ⟨frame, hd, hw, hg | ⟨gray, hg, he⟩⟩
  · simp [hd]
  · simp [hd, hw, hg]
  · simp [hd, hw, hg, he]

/-! ## Claims -/

/-- C1 (frame id propagation): whenever the steps of the try block succeed, `imageCallback`
publishes exactly one frame and it carries the frame id of the image message, and
`imageCallbackWithInfo` publishes exactly one frame and it carries the frame id of the
camera-info message, whatever the image's own frame id is; and no frame that either
callback publishes carries another frame id. -/
theorem frame_id_propagation (d : Deps) (s : Nodelet) (msg : Image) (info : CameraInfo) :
    (∀ img ∈ (imageCallback d s msg).published,
      img.header.frame_id = msg.header.frame_id) ∧
    (∀ img ∈ (imageCallbackWithInfo d s msg info).published,
      img.header.frame_id = info.header.frame_id) ∧
    (∀ frame gray dst, decode d msg = .ok frame → openWindow d s = .ok () →
      toGray d frame = .ok gray → (equalize d s gray).2 = .ok dst →
      showResult d s dst = .ok () →
      (∃ img, (imageCallback d s msg).published = [img] ∧
        img = outImg d msg msg.header.frame_id dst ∧
        img.header.frame_id = msg.header.frame_id) ∧
      (∃ img, (imageCallbackWithInfo d s msg info).published = [img] ∧
        img = outImg d msg info.header.frame_id dst ∧
        img.header.frame_id = info.header.frame_id)) := by
  refine ⟨?_, ?_, ?_⟩
  · intro img h
    obtain ⟨_, _, dst, _, _, _, _, _, rfl⟩ := published_cases d s msg _ img h
    rfl
  · intro img h
    obtain ⟨_, _, dst, _, _, _, _, _, rfl⟩ := published_cases d s msg _ img h
    rfl
  · intro frame gray dst hd hw hg he hs
    exact ⟨⟨_, (published_of_steps d s msg msg.header.frame_id frame gray dst hd hw hg he
        hs).1, rfl, rfl⟩,
      ⟨_, (published_of_steps d s msg info.header.frame_id frame gray dst hd hw hg he
        hs).1, rfl, rfl⟩⟩

/-- Witness of C1: the grayscale sample from "camera" is published under "camera" by
`imageCallback`, and under "camera_optical" by `imageCallbackWithInfo` when delivered with
calibration from "camera_optical". -/
theorem frame_id_propagation_witness :
    (∃ img, (imageCallback sampleDeps (freshNodelet claheConfig false) monoMsg).published =
        [img] ∧
      img = outImg sampleDeps monoMsg monoMsg.header.frame_id ⟨1, 4, 1, 1, [14, 24, 24, 204]⟩ ∧
      img.header.frame_id = monoMsg.header.frame_id) ∧
    (∃ img, (imageCallbackWithInfo sampleDeps (freshNodelet claheConfig false) monoMsg
        sampleInfo).published = [img] ∧
      img = outImg sampleDeps monoMsg sampleInfo.header.frame_id
        ⟨1, 4, 1, 1, [14, 24, 24, 204]⟩ ∧
      img.header.frame_id = sampleInfo.header.frame_id) ∧
    (imageCallback sampleDeps (freshNodelet claheConfig false) monoMsg).published =
      [⟨⟨7, ⟨100, 5⟩, "camera"⟩, 1, 4, "mono8", false, 4, [14, 24, 24, 204]⟩] ∧
    (imageCallbackWithInfo sampleDeps (freshNodelet claheConfig false) monoMsg
      sampleInfo).published =
      [⟨⟨7, ⟨100, 5⟩, "camera_optical"⟩, 1, 4, "mono8", false, 4, [14, 24, 24, 204]⟩] ∧
    monoMsg.header.frame_id ≠ sampleInfo.header.frame_id :=
  ⟨((frame_id_propagation sampleDeps (freshNodelet claheConfig false) monoMsg sampleInfo).2.2
      ⟨1, 4, 1, 1, [10, 20, 20, 200]⟩ ⟨1, 4, 1, 1, [10, 20, 20, 200]⟩
      ⟨1, 4, 1, 1, [14, 24, 24, 204]⟩ rfl rfl rfl rfl rfl).1,
   ((frame_id_propagation sampleDeps (freshNodelet claheConfig false) monoMsg sampleInfo).2.2
      ⟨1, 4, 1, 1, [10, 20, 20, 200]⟩ ⟨1, 4, 1, 1, [10, 20, 20, 200]⟩
      ⟨1, 4, 1, 1, [14, 24, 24, 204]⟩ rfl rfl rfl rfl rfl).2,
   by decide, by decide, by decide⟩

/-- C2 (header frame condition): every frame published by `doWork msg f` has the header of
`msg` with only `frame_id` replaced by `f`; sequence number and timestamp are those of `msg`. -/
theorem header_frame_condition (d : Deps) (s : Nodelet) (msg : Image) (f : String)
    (img : Image) (h : img ∈ (doWork d s msg f).published) :
    img.header = { msg.header with frame_id := f } ∧
    img.header.seq = msg.header.seq ∧ img.header.stamp = msg.header.stamp ∧
    img.header.frame_id = f := by
  obtain ⟨_, _, dst, _, _, _, _, _, rfl⟩ := published_cases d s msg f img h
  exact ⟨rfl, rfl, rfl, rfl⟩

/-- Witness of C2: the equalized grayscale sample keeps sequence number 7 and its timestamp
and is relabelled "map". -/
theorem header_frame_condition_witness :
    (⟨⟨7, ⟨100, 5⟩, "map"⟩, 1, 4, "mono8", false, 4, [0, 170, 170, 255]⟩ : Image) ∈
      (doWork sampleDeps (freshNodelet globalConfig false) monoMsg "map").published ∧
    (⟨⟨7, ⟨100, 5⟩, "map"⟩, 1, 4, "mono8", false, 4, [0, 170, 170, 255]⟩ : Image).header =
      { monoMsg.header with frame_id := "map" } :=
  ⟨by decide,
   (header_frame_condition sampleDeps (freshNodelet globalConfig false) monoMsg "map" _
     (by decide)).1⟩

/-- C9 (subscription state machine): from the state with neither handle active, `subscribe`
activates the camera handle alone when `use_camera_info` is set and the plain image handle
alone otherwise; `unsubscribe` leaves both handles inactive from every state, and applying
it twice is the same as applying it once. -/
theorem subscription_state_machine (s : Nodelet) :
    (s.img_sub_ = none ∧ s.cam_sub_ = none →
      (s.config_.use_camera_info = true →
        (subscribe s).cam_sub_ = some ⟨"image", s.queue_size_, .imageCallbackWithInfo⟩ ∧
        (subscribe s).img_sub_ = none) ∧
      (s.config_.use_camera_info = false →
        (subscribe s).img_sub_ = some ⟨"image", s.queue_size_, .imageCallback⟩ ∧
        (subscribe s).cam_sub_ = none)) ∧
    ((unsubscribe s).img_sub_ = none ∧ (unsubscribe s).cam_sub_ = none) ∧
    unsubscribe (unsubscribe s) = unsubscribe s := by
  refine ⟨?_, ⟨rfl, rfl⟩, rfl⟩
  rintro ⟨hi, hc⟩
  constructor
  · intro hu
    simp [subscribe, hu, hi]
  · intro hu
    simp [subscribe, hu, hc]

/-- Witness of C9: a fresh adapter configured for camera info gets its camera handle, and
only that one, from `subscribe`. -/
theorem subscription_state_machine_witness :
    (subscribe (freshNodelet claheConfig false)).cam_sub_ =
      some ⟨"image", 3, .imageCallbackWithInfo⟩ ∧
    (subscribe (freshNodelet claheConfig false)).img_sub_ = none :=
  (subscription_state_machine (freshNodelet claheConfig false)).1 ⟨rfl, rfl⟩ |>.1 rfl

/-- C8 (reconfiguration is a full replacement): after `reconfigureCallback c` the stored
configuration is `c`, the stored tile size is `(c.clahe_tile_size_x, c.clahe_tile_size_y)`
and the stored clip limit is `c.clahe_clip_limit`; when `c` selects CLAHE, the switch of the
next `doWork` sets the processor to exactly that tile grid and clip limit and applies it,
and every frame that `doWork` publishes holds the result of that application. -/
theorem reconfigure_is_full_replacement (d : Deps) (s : Nodelet) (c : Config) (level : Nat) :
    (reconfigureCallback s c level).config_ = c ∧
    (reconfigureCallback s c level).clahe_tile_size_ =
      ⟨c.clahe_tile_size_x, c.clahe_tile_size_y⟩ ∧
    (reconfigureCallback s c level).clahe_clip_limit_ = c.clahe_clip_limit ∧
    (c.histogram_equalization_type = d.EqualizeHistogram_Clahe →
      (∀ gray, equalize d (reconfigureCallback s c level) gray =
        ({ reconfigureCallback s c level with
            clahe_ := some ⟨⟨c.clahe_tile_size_x, c.clahe_tile_size_y⟩, c.clahe_clip_limit⟩ },
          d.claheApply ⟨⟨c.clahe_tile_size_x, c.clahe_tile_size_y⟩, c.clahe_clip_limit⟩
            gray)) ∧
      (∀ msg f, ∀ img ∈ (doWork d (reconfigureCallback s c level) msg f).published,
        (doWork d (reconfigureCallback s c level) msg f).state.clahe_ =
          some ⟨⟨c.clahe_tile_size_x, c.clahe_tile_size_y⟩, c.clahe_clip_limit⟩ ∧
        ∃ frame gray dst, decode d msg = .ok frame ∧ toGray d frame = .ok gray ∧
          d.claheApply ⟨⟨c.clahe_tile_size_x, c.clahe_tile_size_y⟩, c.clahe_clip_limit⟩
            gray = .ok dst ∧
          img = outImg d msg f dst)) := by
  refine ⟨rfl, rfl, rfl, ?_⟩
  intro hc
  have heq : ∀ gray, equalize d (reconfigureCallback s c level) gray =
      ({ reconfigureCallback s c level with
          clahe_ := some ⟨⟨c.clahe_tile_size_x, c.clahe_tile_size_y⟩, c.clahe_clip_limit⟩ },
        d.claheApply ⟨⟨c.clahe_tile_size_x, c.clahe_tile_size_y⟩, c.clahe_clip_limit⟩
          gray) := by
    intro gray
    unfold equalize
    rw [if_pos (by exact hc)]
    cases (reconfigureCallback s c level).clahe_ <;> rfl
  refine ⟨heq, ?_⟩
  intro msg f img himg
  obtain ⟨frame, gray, dst, hd, hw, hg, he, hs, rfl⟩ := published_cases d _ msg f img himg
  rw [heq] at he
  refine ⟨?_, frame, gray, dst, hd, hg, he, rfl⟩
  rw [doWork_state]
  unfold tryBlock
  rw [hd]
  simp only [hw, hg, heq gray]
  simp only at he
  rw [he]
  simp only
  have hs2 := hs
  rw [← showResult_state d _ gray dst, heq] at hs2
  simp only at hs2
  rw [hs2]

/-- Witness of C8: after switching a running adapter to the CLAHE configuration with a 4 x 2
grid, the frame published next comes from the processor set to that grid and clip limit. -/
theorem reconfigure_is_full_replacement_witness :
    (doWork sampleDeps (reconfigureCallback (freshNodelet globalConfig false) claheConfig 0)
      monoMsg "camera").state.clahe_ = some ⟨⟨4, 2⟩, ⟨0x4000000000000000⟩⟩ :=
  (((reconfigure_is_full_replacement sampleDeps (freshNodelet globalConfig false) claheConfig
    0).2.2.2 rfl).2 monoMsg "camera"
    ⟨⟨7, ⟨100, 5⟩, "camera"⟩, 1, 4, "mono8", false, 4, [14, 24, 24, 204]⟩ (by decide)).1

/-- C7 (history-independent determinism): what `doWork` publishes, logs and lets escape is
the same in any two adapter states with the same algorithm selector, tile size, clip limit
and debug flag; hence the same input under the same configuration gives the same output
after any sequence of other frames and reconfigurations in between, and the processor kept
from earlier invocations has no influence on the result. -/
theorem history_independent_determinism (d : Deps) (s : Nodelet) (msg : Image) (f : String) :
    (∀ t, SameSettings s t →
      (doWork d t msg f).published = (doWork d s msg f).published ∧
      (doWork d t msg f).logged = (doWork d s msg f).logged ∧
      (doWork d t msg f).escaped = (doWork d s msg f).escaped) ∧
    (∀ (c : Config) (level level2 : Nat) (events : List Event),
      (doWork d (reconfigureCallback
          (run d (doWork d (reconfigureCallback s c level) msg f).state events) c level2)
        msg f).published = (doWork d (reconfigureCallback s c level) msg f).published) ∧
    (∀ p, (doWork d { s with clahe_ := p } msg f).published = (doWork d s msg f).published) := by
  refine ⟨?_, ?_, ?_⟩
  · intro t h
    obtain ⟨h1, h2, h3⟩ := doWork_sameSettings d s t msg f h
    exact ⟨h1.symm, h2.symm, h3.symm⟩
  · intro c level level2 events
    refine (doWork_sameSettings d _ _ msg f (sameSettings_reconfigure _ _ c _ _ ?_)).1
    rw [run_debug_view, doWork_keeps_settings]
    rfl
  · intro p
    exact (doWork_sameSettings d { s with clahe_ := p } s msg f ⟨rfl, rfl, rfl, rfl⟩).1

/-- Witness of C7: an adapter that served a colour frame under global equalization and a
grayscale frame with another CLAHE setting in between publishes, once set back to the 4 x 2
CLAHE configuration, what a fresh adapter publishes for the same frame. -/
theorem history_independent_determinism_witness :
    (doWork sampleDeps
      (run sampleDeps (freshNodelet claheConfig false)
        [.image monoMsg, .reconfigure globalConfig 0, .image bgrMsg,
         .reconfigure ⟨1, 8, 8, ⟨5⟩, true⟩ 0, .imageWithInfo monoMsg sampleInfo,
         .reconfigure claheConfig 0])
      monoMsg "camera").published =
    (doWork sampleDeps (freshNodelet claheConfig false) monoMsg "camera").published :=
  ((history_independent_determinism sampleDeps (freshNodelet claheConfig false) monoMsg
    "camera").1 _ ⟨rfl, rfl, rfl, rfl⟩).1

/-- C6 (grayscale pass-through): for a MONO8 message decoded to a one-channel image `I`,
the channel-conversion step returns `I` itself, and every frame `doWork` publishes holds
the selected algorithm applied to `I`: CLAHE with the configured tile grid and clip limit,
or global equalization; with the debug view off the frame is published whenever the
algorithm succeeds. -/
theorem grayscale_pass_through (d : Deps) (s : Nodelet) (c : Config) (level : Nat)
    (msg : Image) (f : String) (I : Mat)
    (hlabels : d.EqualizeHistogram_Clahe ≠ d.EqualizeHistogram_EqualizeHist)
    (henc : msg.encoding = MONO8) (hdec : d.toCvShare msg MONO8 = .ok I)
    (hone : I.channels = 1) :
    toGray d I = .ok I ∧
    (∀ img ∈ (doWork d (reconfigureCallback s c level) msg f).published,
      (c.histogram_equalization_type = d.EqualizeHistogram_Clahe →
        ∃ dst, d.claheApply ⟨⟨c.clahe_tile_size_x, c.clahe_tile_size_y⟩, c.clahe_clip_limit⟩
          I = .ok dst ∧ img = outImg d msg f dst ∧ img.data = dst.data) ∧
      (c.histogram_equalization_type = d.EqualizeHistogram_EqualizeHist →
        ∃ dst, d.equalizeHist I = .ok dst ∧ img = outImg d msg f dst ∧ img.data = dst.data)) ∧
    (s.debug_view_ = false →
      (c.histogram_equalization_type = d.EqualizeHistogram_Clahe →
        ∀ dst, d.claheApply ⟨⟨c.clahe_tile_size_x, c.clahe_tile_size_y⟩, c.clahe_clip_limit⟩
          I = .ok dst →
          (doWork d (reconfigureCallback s c level) msg f).published = [outImg d msg f dst]) ∧
      (c.histogram_equalization_type = d.EqualizeHistogram_EqualizeHist →
        ∀ dst, d.equalizeHist I = .ok dst →
          (doWork d (reconfigureCallback s c level) msg f).published = [outImg d msg f dst])) := by
  have hgray : toGray d I = .ok I := by simp [toGray, hone, Mat.copyTo]
  have hd : decode d msg = .ok I := by
    have hne : ¬ msg.encoding = BGR8 := by rw [henc]; decide
    unfold decode
    rw [if_neg hne, if_pos henc]
    exact hdec
  have hcl : c.histogram_equalization_type = d.EqualizeHistogram_Clahe → ∀ g,
      (equalize d (reconfigureCallback s c level) g).2 =
        d.claheApply ⟨⟨c.clahe_tile_size_x, c.clahe_tile_size_y⟩, c.clahe_clip_limit⟩ g := by
    intro h g
    rw [equalize_result]
    exact if_pos h
  have heh : c.histogram_equalization_type = d.EqualizeHistogram_EqualizeHist → ∀ g,
      (equalize d (reconfigureCallback s c level) g).2 = d.equalizeHist g := by
    intro h g
    have hne : ¬ c.histogram_equalization_type = d.EqualizeHistogram_Clahe := by
      rw [h]; exact fun e => hlabels e.symm
    rw [equalize_result]
    show (if c.histogram_equalization_type = d.EqualizeHistogram_Clahe then _
      else if c.histogram_equalization_type = d.EqualizeHistogram_EqualizeHist then _
      else _) = _
    rw [if_neg hne, if_pos h]
  refine ⟨hgray, ?_, ?_⟩
  · intro img himg
    obtain ⟨frame, gray, dst, hd2, _, hg, he, _, rfl⟩ := published_cases d _ msg f img himg
    rw [hd] at hd2
    cases hd2
    rw [hgray] at hg
    cases hg
    constructor
    · intro h
      rw [hcl h] at he
      exact ⟨dst, he, rfl, rfl⟩
    · intro h
      rw [heh h] at he
      exact ⟨dst, he, rfl, rfl⟩
  · intro hdbg
    have hw : openWindow d (reconfigureCallback s c level) = .ok () := by
      simp [openWindow, reconfigureCallback, hdbg]
    have hs : ∀ dst, showResult d (reconfigureCallback s c level) dst = .ok () := by
      intro dst
      simp [showResult, reconfigureCallback, hdbg]
    constructor
    · intro h dst hdst
      exact (published_of_steps d _ msg f I I dst hd hw hgray (by rw [hcl h]; exact hdst)
        (hs dst)).1
    · intro h dst hdst
      exact (published_of_steps d _ msg f I I dst hd hw hgray (by rw [heh h]; exact hdst)
        (hs dst)).1

/-- Witness of C6: the 1 x 4 grayscale sample under global equalization is published as
the equalization of its own four bytes. -/
theorem grayscale_pass_through_witness :
    sampleDeps.equalizeHist ⟨1, 4, 1, 1, [10, 20, 20, 200]⟩ =
      .ok ⟨1, 4, 1, 1, [0, 170, 170, 255]⟩ ∧
    (doWork sampleDeps (reconfigureCallback (freshNodelet claheConfig false) globalConfig 0)
      monoMsg "camera").published =
      [outImg sampleDeps monoMsg "camera" ⟨1, 4, 1, 1, [0, 170, 170, 255]⟩] :=
  ⟨rfl,
   ((grayscale_pass_through sampleDeps (freshNodelet claheConfig false) globalConfig 0 monoMsg
      "camera" ⟨1, 4, 1, 1, [10, 20, 20, 200]⟩ (by decide) (by decide) rfl
      (by decide)).2.2 (by decide)).2 (by decide) _ rfl⟩

/-- C5 (single-channel output): every frame `doWork` publishes is labelled MONO8; and with
libraries that return the buffer types they document, its pixel buffer has one channel of
one byte, so that its row stride equals its width. -/
theorem single_channel_output (d : Deps) (s : Nodelet) (msg : Image) (f : String) :
    (∀ img ∈ (doWork d s msg f).published, img.encoding = MONO8) ∧
    (TypeContract d → ∀ img ∈ (doWork d s msg f).published,
      img.step = img.width ∧
      ∃ dst, img = outImg d msg f dst ∧ dst.channels = 1 ∧ dst.elemSize1 = 1) := by
  constructor
  · intro img himg
    obtain ⟨_, _, dst, _, _, _, _, _, rfl⟩ := published_cases d s msg f img himg
    rfl
  · rintro ⟨hdecode, hcvt, hclahe, hequal⟩ img himg
    obtain ⟨frame, gray, dst, hd, _, hg, he, _, rfl⟩ := published_cases d s msg f img himg
    have hframe : frame.elemSize1 = 1 := by
      unfold decode at hd
      split at hd
      · exact hdecode msg BGR8 frame (Or.inl rfl) hd
      · split at hd
        · exact hdecode msg MONO8 frame (Or.inr rfl) hd
        · cases hd
          rfl
    have hgray : gray.elemSize1 = 1 := by
      unfold toGray at hg
      split at hg
      · rw [(hcvt frame gray hg).2, hframe]
      · cases hg
        exact hframe
    have hdst : dst.channels = 1 ∧ dst.elemSize1 = 1 := by
      rw [equalize_result] at he
      split at he
      · obtain ⟨h1, h2, h3⟩ := hclahe _ gray dst he
        exact ⟨by rw [h2, h1], by rw [h3, hgray]⟩
      · split at he
        · exact hequal gray dst he
        · cases he
          exact ⟨rfl, rfl⟩
    refine ⟨?_, dst, rfl, hdst⟩
    show dst.cols * (dst.channels * dst.elemSize1) = dst.cols
    rw [hdst.1, hdst.2]
    simp

/-- Witness of C5: the two-pixel colour sample, six bytes in rows of six, is published as
MONO8 with two bytes in a row of two. -/
theorem single_channel_output_witness :
    (⟨⟨8, ⟨101, 0⟩, "camera"⟩, 1, 2, "mono8", false, 2, [0, 255]⟩ : Image) ∈
      (doWork sampleDeps (freshNodelet globalConfig false) bgrMsg "camera").published ∧
    (⟨⟨8, ⟨101, 0⟩, "camera"⟩, 1, 2, "mono8", false, 2, [0, 255]⟩ : Image).step =
      (⟨⟨8, ⟨101, 0⟩, "camera"⟩, 1, 2, "mono8", false, 2, [0, 255]⟩ : Image).width :=
  ⟨by decide,
   ((single_channel_output sampleDeps (freshNodelet globalConfig false) bgrMsg "camera").2
      sampleDeps_typeContract _ (by decide)).1⟩

/-- C3 (unsupported encoding), the behaviour of the code: a message whose encoding is
neither BGR8 nor MONO8 leaves the frame empty and is not rejected; under global
equalization with the debug view off, whenever `equalizeHist` returns on the empty buffer
(OpenCV returns at once, leaving the output empty), `doWork` returns normally, logs
nothing and publishes a frame. -/
theorem unsupported_encoding_is_published (d : Deps) (s : Nodelet) (msg : Image) (f : String)
    (dst : Mat) (hbgr : msg.encoding ≠ BGR8) (hmono : msg.encoding ≠ MONO8)
    (hdebug : s.debug_view_ = false)
    (hlabels : d.EqualizeHistogram_Clahe ≠ d.EqualizeHistogram_EqualizeHist)
    (htype : s.config_.histogram_equalization_type = d.EqualizeHistogram_EqualizeHist)
    (hlib : d.equalizeHist Mat.empty = .ok dst) :
    decode d msg = .ok Mat.empty ∧
    (doWork d s msg f).published = [outImg d msg f dst] ∧
    (doWork d s msg f).logged = [] ∧
    (doWork d s msg f).escaped = none := by
  have hd : decode d msg = .ok Mat.empty := by
    unfold decode
    rw [if_neg hbgr, if_neg hmono]
  have hw : openWindow d s = .ok () := by simp [openWindow, hdebug]
  have hg : toGray d Mat.empty = .ok Mat.empty := by simp [toGray, Mat.empty, Mat.copyTo]
  have hne : ¬ s.config_.histogram_equalization_type = d.EqualizeHistogram_Clahe := by
    rw [htype]; exact fun e => hlabels e.symm
  have he : (equalize d s Mat.empty).2 = .ok dst := by
    rw [equalize_result, if_neg hne, if_pos htype, hlib]
  have hs : showResult d s dst = .ok () := by simp [showResult, hdebug]
  refine ⟨hd, (published_of_steps d s msg f _ _ dst hd hw hg he hs).1, ?_,
    (published_of_steps d s msg f _ _ dst hd hw hg he hs).2⟩
  simp [doWork_logged, tryBlock_result, hd, hw, hg, he, hs]

/-- Witness of C3: an "rgb8" frame under global equalization is answered with an empty
MONO8 frame of height and width zero. -/
theorem unsupported_encoding_is_published_witness :
    (doWork sampleDeps (freshNodelet globalConfig false) rgbMsg "camera").published =
      [⟨⟨9, ⟨102, 0⟩, "camera"⟩, 0, 0, "mono8", false, 0, []⟩] :=
  (unsupported_encoding_is_published sampleDeps (freshNodelet globalConfig false) rgbMsg
    "camera" Mat.empty (by decide) (by decide) rfl (by decide) rfl rfl).2.1

/-- C4 as stated fails: decoding the truncated grayscale sample fails with the exception of
cv_bridge, which is not a `cv::Exception`; the handler does not match it and the exception
leaves `doWork`. -/
theorem decoding_failure_escapes :
    decode sampleDeps truncatedMsg =
      .error (.other "cv_bridge::Exception: Image is wrongly formed") ∧
    (doWork sampleDeps (freshNodelet claheConfig false) truncatedMsg "camera").escaped =
      some (.other "cv_bridge::Exception: Image is wrongly formed") ∧
    (doWork sampleDeps (freshNodelet claheConfig false) truncatedMsg "camera").escaped ≠
      none := by
  refine ⟨rfl, by decide, by decide⟩

/-- C4, amended (a failing step is contained per frame when it throws `cv::Exception`): if
decoding, grayscale conversion, CLAHE apply or global equalization fails with exception
`e`, then `doWork` publishes nothing and leaves the algorithm selector, tile size and clip
limit as they were, and a following invocation publishes what it would have published had
the failed one not happened; `doWork` returns normally, with one logged line, exactly when
`e` is a `cv::Exception`, and lets `e` escape otherwise. -/
theorem cv_failure_is_contained (d : Deps) (s : Nodelet) (msg : Image) (f : String) (e : Exn)
    (hfail : decode d msg = .error e ∨
      ∃ frame, decode d msg = .ok frame ∧ openWindow d s = .ok () ∧
        (toGray d frame = .error e ∨
          ∃ gray, toGray d frame = .ok gray ∧
            ((s.config_.histogram_equalization_type = d.EqualizeHistogram_Clahe ∧
                d.claheApply ⟨s.clahe_tile_size_, s.clahe_clip_limit_⟩ gray = .error e) ∨
              (s.config_.histogram_equalization_type ≠ d.EqualizeHistogram_Clahe ∧
                s.config_.histogram_equalization_type = d.EqualizeHistogram_EqualizeHist ∧
                d.equalizeHist gray = .error e)))) :
    (doWork d s msg f).published = [] ∧
    (doWork d s msg f).escaped = (if e.isCv then none else some e) ∧
    (∀ err func file line, e = .cv err func file line →
      (doWork d s msg f).logged = [errorLine err func file line]) ∧
    (doWork d s msg f).state.config_ = s.config_ ∧
    (doWork d s msg f).state.clahe_tile_size_ = s.clahe_tile_size_ ∧
    (doWork d s msg f).state.clahe_clip_limit_ = s.clahe_clip_limit_ ∧
    (∀ msg2 f2, (doWork d (doWork d s msg f).state msg2 f2).published =
      (doWork d s msg2 f2).published) := by
  have herr : (tryBlock d s msg f).2 = .error e := by
    apply tryBlock_error_of_step
    rcases hfail with hd | ⟨frame, hd, hw, hg | ⟨gray, hg, hcl | heh⟩⟩
    · exact Or.inl hd
    · exact Or.inr ⟨frame, hd, hw, Or.inl hg⟩
    · refine Or.inr ⟨frame, hd, hw, Or.inr ⟨gray, hg, ?_⟩⟩
      rw [equalize_result, if_pos hcl.1]
      exact hcl.2
    · refine Or.inr ⟨frame, hd, hw, Or.inr ⟨gray, hg, ?_⟩⟩
      rw [equalize_result, if_neg heh.1, if_pos heh.2.1]
      exact heh.2.2
  have hkeep := doWork_keeps_settings d s msg f
  refine ⟨?_, ?_, ?_, ?_, ?_, ?_, ?_⟩
  · rw [doWork_published, herr]
  · rw [doWork_escaped, herr]
    cases e <;> rfl
  · intro err func file line he
    subst he
    rw [doWork_logged, herr]
  · rw [hkeep]
  · rw [hkeep]
  · rw [hkeep]
  · intro msg2 f2
    refine (doWork_sameSettings d _ _ msg2 f2 ?_).1
    rw [hkeep]
    exact ⟨rfl, rfl, rfl, rfl⟩

/-- Witness of C4: with a 0 x 0 tile grid the CLAHE apply of the sample collaborators
throws `cv::Exception`; nothing is published and nothing escapes. -/
theorem cv_failure_is_contained_witness :
    (doWork sampleDeps (freshNodelet ⟨1, 0, 0, ⟨0⟩, false⟩ false) monoMsg "camera").published =
      [] ∧
    (doWork sampleDeps (freshNodelet ⟨1, 0, 0, ⟨0⟩, false⟩ false) monoMsg "camera").escaped =
      (if (Exn.cv "Assertion failed" "apply" "clahe.cpp" 0).isCv then none
       else some (Exn.cv "Assertion failed" "apply" "clahe.cpp" 0)) :=
  ⟨(cv_failure_is_contained sampleDeps (freshNodelet ⟨1, 0, 0, ⟨0⟩, false⟩ false) monoMsg
      "camera" (.cv "Assertion failed" "apply" "clahe.cpp" 0)
      (Or.inr ⟨⟨1, 4, 1, 1, [10, 20, 20, 200]⟩, rfl, rfl,
        Or.inr ⟨⟨1, 4, 1, 1, [10, 20, 20, 200]⟩, rfl, Or.inl ⟨rfl, rfl⟩⟩⟩)).1,
   (cv_failure_is_contained sampleDeps (freshNodelet ⟨1, 0, 0, ⟨0⟩, false⟩ false) monoMsg
      "camera" (.cv "Assertion failed" "apply" "clahe.cpp" 0)
      (Or.inr ⟨⟨1, 4, 1, 1, [10, 20, 20, 200]⟩, rfl, rfl,
        Or.inr ⟨⟨1, 4, 1, 1, [10, 20, 20, 200]⟩, rfl, Or.inl ⟨rfl, rfl⟩⟩⟩)).2.1⟩

/-- C10 as stated fails: on a host without a window backend `namedWindow` throws, so the
grayscale sample is published with the debug view off and dropped with the debug view on. -/
theorem debug_view_failure_suppresses_output :
    (doWork headlessDeps (freshNodelet globalConfig false) monoMsg "camera").published =
      [⟨⟨7, ⟨100, 5⟩, "camera"⟩, 1, 4, "mono8", false, 4, [0, 170, 170, 255]⟩] ∧
    (doWork headlessDeps (freshNodelet globalConfig true) monoMsg "camera").published = [] ∧
    (doWork headlessDeps (freshNodelet globalConfig true) monoMsg "camera").published ≠
      (doWork headlessDeps (freshNodelet globalConfig false) monoMsg "camera").published := by
  refine ⟨by decide, by decide, by decide⟩

/-- C10, amended (the debug view is observational as long as it works): when `namedWindow`
succeeds and `imshow` and `waitKey` succeed on the buffer the invocation produces, `doWork`
publishes, logs and lets escape the same with the debug view on as with it off; and every
frame published with the debug view on is the one published with it off and has passed all
three calls, so that a failing debug call leaves the invocation without output. -/
theorem debug_view_observational_when_it_succeeds (d : Deps) (s : Nodelet) (msg : Image)
    (f : String) :
    (d.namedWindow OPENCV_WINDOW WINDOW_AUTOSIZE = .ok () →
      (∀ frame gray dst, decode d msg = .ok frame → toGray d frame = .ok gray →
        (equalize d s gray).2 = .ok dst →
        d.imshow OPENCV_WINDOW dst = .ok () ∧ ∃ key, d.waitKey 1 = .ok key) →
      (doWork d { s with debug_view_ := true } msg f).published =
        (doWork d { s with debug_view_ := false } msg f).published ∧
      (doWork d { s with debug_view_ := true } msg f).logged =
        (doWork d { s with debug_view_ := false } msg f).logged ∧
      (doWork d { s with debug_view_ := true } msg f).escaped =
        (doWork d { s with debug_view_ := false } msg f).escaped) ∧
    (∀ img ∈ (doWork d { s with debug_view_ := true } msg f).published,
      img ∈ (doWork d { s with debug_view_ := false } msg f).published ∧
      d.namedWindow OPENCV_WINDOW WINDOW_AUTOSIZE = .ok () ∧
      ∃ dst, img = outImg d msg f dst ∧ d.imshow OPENCV_WINDOW dst = .ok () ∧
        ∃ key, d.waitKey 1 = .ok key) ∧
    ((∃ e, d.namedWindow OPENCV_WINDOW WINDOW_AUTOSIZE = .error e) →
      (doWork d { s with debug_view_ := true } msg f).published = []) := by
  have hwoff : openWindow d { s with debug_view_ := false } = .ok () := rfl
  have hsoff : ∀ dst, showResult d { s with debug_view_ := false } dst = .ok () :=
    fun _ => rfl
  have hwon : openWindow d { s with debug_view_ := true } =
      d.namedWindow OPENCV_WINDOW WINDOW_AUTOSIZE := rfl
  have heon : ∀ g, (equalize d { s with debug_view_ := true } g).2 = (equalize d s g).2 := by
    intro g
    rw [equalize_result, equalize_result]
  have heoff : ∀ g, (equalize d { s with debug_view_ := false } g).2 = (equalize d s g).2 := by
    intro g
    rw [equalize_result, equalize_result]
  refine ⟨?_, ?_, ?_⟩
  · intro hn hshow
    have hres : (tryBlock d { s with debug_view_ := true } msg f).2 =
        (tryBlock d { s with debug_view_ := false } msg f).2 := by
      simp only [tryBlock_result, hwon, hn, hwoff, heon, heoff, hsoff]
      cases hd : decode d msg with
      | error e => rfl
      | ok frame =>
        simp only
        cases hg : toGray d frame with
        | error e => rfl
        | ok gray =>
          simp only
          cases he : (equalize d s gray).2 with
          | error e => rfl
          | ok dst =>
            obtain ⟨hi, key, hk⟩ := hshow frame gray dst hd hg he
            have hson : showResult d { s with debug_view_ := true } dst = .ok () := by
              simp [showResult, hi, hk]
            simp only [hson]
    simp only [doWork_published, doWork_logged, doWork_escaped, hres, and_self]
  · intro img himg
    obtain ⟨frame, gray, dst, hd, hw, hg, he, hs, rfl⟩ := published_cases d _ msg f _ himg
    rw [hwon] at hw
    rw [heon, ← heoff] at he
    refine ⟨?_, hw, dst, rfl, ?_⟩
    · rw [(published_of_steps d _ msg f frame gray dst hd hwoff hg he (hsoff dst)).1]
      exact List.mem_singleton.mpr rfl
    · simp only [showResult, if_true] at hs
      cases hi : d.imshow OPENCV_WINDOW dst with
      | error e => simp [hi] at hs
      | ok u =>
        refine ⟨rfl, ?_⟩
        cases hk : d.waitKey 1 with
        | error e => simp [hi, hk] at hs
        | ok key => exact ⟨key, rfl⟩
  · rintro ⟨e, he⟩
    rw [doWork_published, tryBlock_result, hwon, he]
    cases decode d msg <;> rfl

/-- Witness of C10: the window calls of the sample collaborators succeed on the equalized
grayscale sample, which is published alike with the debug view on and off. -/
theorem debug_view_observational_when_it_succeeds_witness :
    (doWork sampleDeps { freshNodelet globalConfig false with debug_view_ := true } monoMsg
      "camera").published =
    (doWork sampleDeps { freshNodelet globalConfig false with debug_view_ := false } monoMsg
      "camera").published :=
  ((debug_view_observational_when_it_succeeds sampleDeps (freshNodelet globalConfig false)
    monoMsg "camera").1 rfl
    (fun frame gray dst hd hg he => by
      cases hd
      cases hg
      cases he
      exact ⟨rfl, -1, rfl⟩)).1

end EqualizeHistogram
